import Mathlib

/-!
Shallow embedding of the racer repository's core (SPDE broadcast engine and
PLATO congestion controller) and proofs about it.

Conventions used throughout:
* Rust `f64` scalars are modelled as exact rationals (`ℚ`); the float constant
  `f64::EPSILON = 2⁻⁵²` is kept as the exact rational it denotes.
* Rust `HashSet<String>` becomes `Finset String` (`len` = `Finset.card`);
  `HashMap<String, _>` becomes an association list with `List.lookup`;
  `VecDeque` becomes a `List` whose head is the queue front.
* The ECDSA/SHA-256 primitives and canonical-JSON serialisation are opaque to
  the protocol logic; they are collected in a `CryptoPrimitives` record over
  which all theorems quantify.  What the embedding keeps faithfully is exactly
  which record fields each hashing or signing function reads.
* Async handlers are modelled as atomic events on the protocol state, matching
  the lock discipline of `node.rs` (each handler holds the gossip-state write
  lock across its read-modify-check sequence).
-/

namespace Racer

/-! ## crypto/keys.rs, crypto/ecdsa.rs (abstracted carriers) -/

/-- Hex-encoded SEC1 compressed public key (`crypto::PublicKey`). -/
structure PublicKey where
  hex : String
deriving DecidableEq, Repr

/-- DER-encoded, base64-text ECDSA signature (`crypto::EcdsaSignature`). -/
structure EcdsaSignature where
  der : String
deriving DecidableEq, Repr

/-- Secret scalar of a P-256 signing key (`crypto::SigningKey`). -/
structure SigningKey where
  scalar : Nat
deriving DecidableEq, Repr

/-- `crypto::KeyPair`: a signing key with its public counterpart. -/
structure KeyPair where
  signing_key : SigningKey
  public_key : PublicKey
deriving DecidableEq, Repr

/-- `crypto::EcdsaSigner`, constructed from a signing key. -/
structure EcdsaSigner where
  key : SigningKey
deriving DecidableEq, Repr

/-! ## protocol/vector_clock.rs (carrier only; merge behaviour not needed here) -/

/-- `protocol::VectorClock`: map of source id to 64-bit counter. -/
structure VectorClock where
  entries : List (String × Nat)
deriving DecidableEq, Repr

/-! ## protocol/messages.rs -/

/-- `EchoType`: the two subscribe-request kinds. -/
inductive EchoType where
  | echoSubscribe
  | readySubscribe
deriving DecidableEq, Repr

/-- `ProtocolResponseType`: the two response kinds. -/
inductive ProtocolResponseType where
  | echoResponse
  | readyResponse
deriving DecidableEq, Repr

/-- The cryptographic and serialisation primitives consumed by
`protocol/messages.rs`.  `sign` is `EcdsaSigner::sign`; `verifierFromKey` is
`EcdsaVerifier::from_public_key` (`none` on malformed key); `verifyOk` is
`EcdsaVerifier::verify(...).is_ok()`; `sha256_hex` is `crypto::sha256_hex`;
the `*Json` fields are the `serde_json` encodings of exactly the fields the
source reads: `jsonStable` for the 4-tuple in `compute_hash`, `creatorJson`
for `creator_signing_bytes`, `senderJson` for `sender_signing_bytes`,
`echoJson` for `Echo::signing_bytes`, `responseJson` for
`ProtocolResponse::signing_bytes`. -/
structure CryptoPrimitives where
  sign : SigningKey → List Nat → EcdsaSignature
  verifierFromKey : PublicKey → Option PublicKey
  verifyOk : PublicKey → List Nat → EcdsaSignature → Bool
  sha256_hex : List Nat → String
  jsonStable : String → PublicKey → String → Option EcdsaSignature → List Nat
  creatorJson : String → String → Nat → Nat → List Nat
  senderJson : String → String → String → List Nat
  echoJson : EchoType → String → String → Nat → List Nat
  responseJson : ProtocolResponseType → String → String → Nat → List Nat

/-- `BatchedMessages<M>` (the `bls` feature is off: the two `cfg(feature =
"bls")` fields are absent). -/
structure BatchedMessages (M : Type) where
  batch_id : String
  creator_ecdsa : PublicKey
  sender_ecdsa : PublicKey
  merkle_root : String
  batch_size : Nat
  messages : List M
  vector_clock : VectorClock
  creator_signature : Option EcdsaSignature
  sender_signature : Option EcdsaSignature
  created_at : Nat

/-- `BatchedMessages::compute_hash`: SHA-256 of the canonical JSON of the
stable 4-tuple `(batch_id, creator_ecdsa, merkle_root, creator_signature)`. -/
def BatchedMessages.compute_hash {M : Type} (cp : CryptoPrimitives)
    (b : BatchedMessages M) : String :=
  cp.sha256_hex (cp.jsonStable b.batch_id b.creator_ecdsa b.merkle_root b.creator_signature)

/-- `BatchedMessages::creator_signing_bytes`: JSON of
`{batch_id, merkle_root, batch_size, created_at}`. -/
def BatchedMessages.creator_signing_bytes {M : Type} (cp : CryptoPrimitives)
    (b : BatchedMessages M) : List Nat :=
  cp.creatorJson b.batch_id b.merkle_root b.batch_size b.created_at

/-- `BatchedMessages::sender_signing_bytes`: JSON of
`{batch_id, merkle_root, sender}`. -/
def BatchedMessages.sender_signing_bytes {M : Type} (cp : CryptoPrimitives)
    (b : BatchedMessages M) : List Nat :=
  cp.senderJson b.batch_id b.merkle_root b.sender_ecdsa.hex

/-- `BatchedMessages::sign_as_creator`. -/
def BatchedMessages.sign_as_creator {M : Type} (cp : CryptoPrimitives)
    (b : BatchedMessages M) (signer : EcdsaSigner) : BatchedMessages M :=
  { b with creator_signature := some (cp.sign signer.key (b.creator_signing_bytes cp)) }

/-- `BatchedMessages::sign_as_sender`. -/
def BatchedMessages.sign_as_sender {M : Type} (cp : CryptoPrimitives)
    (b : BatchedMessages M) (signer : EcdsaSigner) : BatchedMessages M :=
  { b with sender_signature := some (cp.sign signer.key (b.sender_signing_bytes cp)) }

/-- `BatchedMessages::become_sender`: copy every field, replace the sender
identity with `keys.public_key`, clear the sender signature, then re-sign as
sender with `keys`. -/
def BatchedMessages.become_sender {M : Type} (cp : CryptoPrimitives)
    (b : BatchedMessages M) (keys : KeyPair) : BatchedMessages M :=
  let new_bm : BatchedMessages M :=
    { batch_id := b.batch_id
      creator_ecdsa := b.creator_ecdsa
      sender_ecdsa := keys.public_key
      merkle_root := b.merkle_root
      batch_size := b.batch_size
      messages := b.messages
      vector_clock := b.vector_clock
      creator_signature := b.creator_signature
      sender_signature := none
      created_at := b.created_at }
  new_bm.sign_as_sender cp (EcdsaSigner.mk keys.signing_key)

/-- `BatchedMessages::verify_creator_signature`: `false` when unsigned or when
the creator key is malformed, else the ECDSA check on the creator bytes. -/
def BatchedMessages.verify_creator_signature {M : Type} (cp : CryptoPrimitives)
    (b : BatchedMessages M) : Bool :=
  match b.creator_signature with
  | some signature =>
    match cp.verifierFromKey b.creator_ecdsa with
    | some v => cp.verifyOk v (b.creator_signing_bytes cp) signature
    | none => false
  | none => false

/-- `BatchedMessages::verify_sender_signature`. -/
def BatchedMessages.verify_sender_signature {M : Type} (cp : CryptoPrimitives)
    (b : BatchedMessages M) : Bool :=
  match b.sender_signature with
  | some signature =>
    match cp.verifierFromKey b.sender_ecdsa with
    | some v => cp.verifyOk v (b.sender_signing_bytes cp) signature
    | none => false
  | none => false

/-- `Echo`: a signed subscribe request. -/
structure Echo where
  echo_type : EchoType
  topic : String
  sender : PublicKey
  signature : Option EcdsaSignature
  timestamp : Nat
deriving DecidableEq, Repr

/-- `Echo::signing_bytes`: JSON of `{echo_type, topic, sender, timestamp}`. -/
def Echo.signing_bytes (cp : CryptoPrimitives) (e : Echo) : List Nat :=
  cp.echoJson e.echo_type e.topic e.sender.hex e.timestamp

/-- `Echo::verify`: `false` when unsigned or the key is malformed, else the
ECDSA check on the signing bytes. -/
def Echo.verify (cp : CryptoPrimitives) (e : Echo) : Bool :=
  match e.signature with
  | some signature =>
    match cp.verifierFromKey e.sender with
    | some v => cp.verifyOk v (e.signing_bytes cp) signature
    | none => false
  | none => false

/-- `ProtocolResponse`: a signed Echo/Ready response. -/
structure ProtocolResponse where
  response_type : ProtocolResponseType
  topic : String
  sender : PublicKey
  signature : Option EcdsaSignature
  timestamp : Nat
deriving DecidableEq, Repr

/-- `ProtocolResponse::signing_bytes`: JSON of
`{response_type, topic, sender, timestamp}`. -/
def ProtocolResponse.signing_bytes (cp : CryptoPrimitives) (r : ProtocolResponse) : List Nat :=
  cp.responseJson r.response_type r.topic r.sender.hex r.timestamp

/-- `ProtocolResponse::verify`. -/
def ProtocolResponse.verify (cp : CryptoPrimitives) (r : ProtocolResponse) : Bool :=
  match r.signature with
  | some signature =>
    match cp.verifierFromKey r.sender with
    | some v => cp.verifyOk v (r.signing_bytes cp) signature
    | none => false
  | none => false

/-! ## protocol/gossip.rs -/

/-- `GossipRound`: per-round witness sets and flags.  The `started_at`
instant (wall-clock, used only by `elapsed`/`is_timed_out`) is omitted. -/
structure GossipRound where
  hash : String
  echo_waiting : Finset String
  echo_received : Finset String
  ready_waiting : Finset String
  ready_received : Finset String
  echo_complete : Bool
  ready_complete : Bool
  delivered : Bool
deriving DecidableEq

/-- `GossipRound::new`: empty sets, all flags false. -/
def GossipRound.new (hash : String) : GossipRound :=
  { hash := hash
    echo_waiting := ∅
    echo_received := ∅
    ready_waiting := ∅
    ready_received := ∅
    echo_complete := false
    ready_complete := false
    delivered := false }

/-- `GossipRound::record_echo`: move the peer from `echo_waiting` to
`echo_received` (inserting even when it was never waiting). -/
def GossipRound.record_echo (r : GossipRound) (peer_id : String) : GossipRound :=
  { r with echo_waiting := r.echo_waiting.erase peer_id
           echo_received := insert peer_id r.echo_received }

/-- `GossipRound::record_ready`. -/
def GossipRound.record_ready (r : GossipRound) (peer_id : String) : GossipRound :=
  { r with ready_waiting := r.ready_waiting.erase peer_id
           ready_received := insert peer_id r.ready_received }

/-- `GossipState<M>`: round registry, batch cache, and the bounded delivered
journal (`delivered_hashes` head = oldest entry).  `default_timeout` and the
`Instant`-based sweep are omitted (wall-clock time). -/
structure GossipState (M : Type) where
  rounds : List (String × GossipRound)
  received_messages : List (String × BatchedMessages M)
  delivered_hashes : List String
  max_delivered : Nat

/-- `GossipState::new`: empty maps, journal capacity 1000. -/
def GossipState.new (M : Type) : GossipState M :=
  { rounds := []
    received_messages := []
    delivered_hashes := []
    max_delivered := 1000 }

/-- `GossipState::get_round` (`HashMap::get`). -/
def GossipState.get_round {M : Type} (s : GossipState M) (hash : String) :
    Option GossipRound :=
  s.rounds.lookup hash

/-- `GossipState::has_message`. -/
def GossipState.has_message {M : Type} (s : GossipState M) (hash : String) : Bool :=
  (s.received_messages.lookup hash).isSome

/-- Pointwise update of the round stored under `hash`, setting its
`delivered` flag (the `rounds.get_mut` step of `mark_delivered`). -/
def setRoundDelivered (rounds : List (String × GossipRound)) (hash : String) :
    List (String × GossipRound) :=
  rounds.map (fun p => if p.1 = hash then (p.1, { p.2 with delivered := true }) else p)

/-- The `while delivered_hashes.len() > max` eviction loop of
`mark_delivered`: pops from the front until the journal fits, returning the
remaining journal and the evicted hashes (oldest first). -/
def evictOldest : List String → Nat → List String × List String
  | [], _ => ([], [])
  | h :: t, max =>
    if max < (h :: t).length then
      let (keep, ev) := evictOldest t max
      (keep, h :: ev)
    else
      (h :: t, [])

/-- `GossipState::mark_delivered`: set the round's flag when the round
exists, append the hash to the journal unconditionally, then evict oldest
journal entries (dropping their rounds and cached batches) until the journal
is within `max_delivered`. -/
def GossipState.mark_delivered {M : Type} (s : GossipState M) (hash : String) :
    GossipState M :=
  let rounds := setRoundDelivered s.rounds hash
  let journal := s.delivered_hashes ++ [hash]
  let (keep, evicted) := evictOldest journal s.max_delivered
  { s with rounds := rounds.filter (fun p => !(evicted.contains p.1))
           received_messages := s.received_messages.filter (fun p => !(evicted.contains p.1))
           delivered_hashes := keep }

/-- `GossipState::is_delivered`: the round's flag, `false` for unknown keys. -/
def GossipState.is_delivered {M : Type} (s : GossipState M) (hash : String) : Bool :=
  ((s.get_round hash).map (fun r => r.delivered)).getD false

/-- `GossipState::was_recently_delivered`: journal membership. -/
def GossipState.was_recently_delivered {M : Type} (s : GossipState M) (hash : String) : Bool :=
  s.delivered_hashes.contains hash

/-- `GossipState::active_rounds`. -/
def GossipState.active_rounds {M : Type} (s : GossipState M) : Nat :=
  (s.rounds.filter (fun p => !p.2.delivered)).length

/-! ## node.rs: the per-round event machine

Each constructor is one handler (or one loop iteration) of `node.rs` acting
on a single round's registry entry, executed under the gossip-state write
lock; the actions are the externally visible effects of that handler. -/

/-- The consensus thresholds of `config.consensus` read by the handlers. -/
structure ConsensusParams where
  ready_threshold : Nat
  feedback_threshold : Nat
  delivery_threshold : Nat
deriving DecidableEq, Repr

/-- Externally visible effects of a handler on one round:
`publishReady` is a `publish_ready_response` call, `deliverBatch` is the
delivered-log sink invocation site being reached. -/
inductive NodeAction where
  | publishReady
  | deliverBatch
deriving DecidableEq, Repr

/-- Events on a single round:
* `echoResponse q` — `handle_subscriber_message`, `EchoResponse` arm;
* `readyResponse q` — `handle_subscriber_message`, `ReadyResponse` arm;
* `readySubscribe` — `inbox_echo`, `ReadySubscribe` arm;
* `gossipEchoCheck` — one echo-phase poll of `gossip_inner` together with the
  publish that follows a successful poll;
* `gossipReadyCheck` — one ready-phase poll of `gossip_inner` together with
  the delivery block that follows a successful poll. -/
inductive RoundEvent where
  | echoResponse (peer : String)
  | readyResponse (peer : String)
  | readySubscribe
  | gossipEchoCheck
  | gossipReadyCheck
deriving DecidableEq, Repr

/-- One handler step on a round, from `node.rs` (see `RoundEvent`). -/
def handleEvent (cfg : ConsensusParams) (r : GossipRound) :
    RoundEvent → GossipRound × List NodeAction
  | .echoResponse peer =>
    let r := r.record_echo peer
    if ¬r.echo_complete ∧ cfg.ready_threshold ≤ r.echo_received.card then
      ({ r with echo_complete := true }, [.publishReady])
    else
      (r, [])
  | .readyResponse peer =>
    let r := r.record_ready peer
    let amplified :=
      if ¬r.echo_complete ∧ cfg.feedback_threshold ≤ r.ready_received.card then
        ({ r with echo_complete := true }, [NodeAction.publishReady])
      else
        (r, [])
    let r := amplified.1
    if ¬r.delivered ∧ cfg.delivery_threshold ≤ r.ready_received.card then
      ({ r with ready_complete := true, delivered := true },
        amplified.2 ++ [.deliverBatch])
    else
      (r, amplified.2)
  | .readySubscribe =>
    if cfg.ready_threshold ≤ r.echo_received.card
        ∨ cfg.feedback_threshold ≤ r.ready_received.card then
      (r, [.publishReady])
    else
      (r, [])
  | .gossipEchoCheck =>
    if cfg.ready_threshold ≤ r.echo_received.card then
      ({ r with echo_complete := true }, [.publishReady])
    else
      (r, [])
  | .gossipReadyCheck =>
    if cfg.delivery_threshold ≤ r.ready_received.card then
      let r := { r with ready_complete := true }
      if ¬r.delivered then
        ({ r with delivered := true }, [.deliverBatch])
      else
        (r, [])
    else
      (r, [])

/-- Run a sequence of round events, accumulating the emitted actions. -/
def runRound (cfg : ConsensusParams) (r : GossipRound) :
    List RoundEvent → GossipRound × List NodeAction
  | [] => (r, [])
  | e :: es =>
    let step := handleEvent cfg r e
    let rest := runRound cfg step.1 es
    (rest.1, step.2 ++ rest.2)

/-! ## config/at2.rs -/

/-- `At2Config`: the six consensus integers. -/
structure At2Config where
  echo_sample_size : Nat
  ready_sample_size : Nat
  delivery_sample_size : Nat
  ready_threshold : Nat
  feedback_threshold : Nat
  delivery_threshold : Nat
deriving DecidableEq, Repr

/-- `At2Config::default`. -/
def At2Config.default : At2Config :=
  { echo_sample_size := 6
    ready_sample_size := 6
    delivery_sample_size := 6
    ready_threshold := 4
    feedback_threshold := 5
    delivery_threshold := 6 }

/-- `At2Config::validate` (the error strings are shortened; integer division
is Rust `usize` division, i.e. `Nat` division). -/
def At2Config.validate (c : At2Config) : Except String Unit :=
  if ¬(c.ready_threshold < c.feedback_threshold
      ∧ c.feedback_threshold < c.delivery_threshold) then
    Except.error "thresholds must satisfy: ready < feedback < delivery"
  else
    let min_ready := c.echo_sample_size / 2 + 1
    if c.ready_threshold < min_ready then
      Except.error "ready_threshold below majority of echo_sample_size"
    else
      let min_feedback := (c.ready_sample_size * 3 + 3) / 4
      if c.feedback_threshold < min_feedback then
        Except.error "feedback_threshold below 75% of ready_sample_size"
      else
        let min_delivery := (c.delivery_sample_size * 85 + 99) / 100
        if c.delivery_threshold < min_delivery then
          Except.error "delivery_threshold below 85% of delivery_sample_size"
        else
          Except.ok ()

/-! ## config/plato.rs -/

/-- `PlatoConfig`: the twelve PLATO scalars (`f64` as `ℚ`). -/
structure PlatoConfig where
  target_latency_secs : ℚ
  target_publishing_frequency_secs : ℚ
  max_publishing_frequency_secs : ℚ
  minimum_latency_secs : ℚ
  max_gossip_timeout_secs : ℚ
  rsi_increase_period : Nat
  rsi_decrease_period : Nat
  rsi_overbought : ℚ
  rsi_oversold : ℚ
  own_latency_weight : ℚ
  savgol_increase_window : Nat
  savgol_decrease_window : Nat
deriving DecidableEq, Repr

/-- `PlatoConfig::default`. -/
def PlatoConfig.default : PlatoConfig :=
  { target_latency_secs := 2.5
    target_publishing_frequency_secs := 2.5
    max_publishing_frequency_secs := 10
    minimum_latency_secs := 1
    max_gossip_timeout_secs := 60
    rsi_increase_period := 14
    rsi_decrease_period := 21
    rsi_overbought := 70
    rsi_oversold := 30
    own_latency_weight := 0.6
    savgol_increase_window := 14
    savgol_decrease_window := 21 }

/-- `PlatoConfig::validate` (error strings shortened). -/
def PlatoConfig.validate (c : PlatoConfig) : Except String Unit :=
  if c.minimum_latency_secs ≤ 0 then
    Except.error "minimum_latency_secs must be positive"
  else if c.target_latency_secs < c.minimum_latency_secs then
    Except.error "target_latency_secs must be >= minimum_latency_secs"
  else if c.max_gossip_timeout_secs ≤ c.target_latency_secs then
    Except.error "max_gossip_timeout_secs must be > target_latency_secs"
  else if ¬(0 ≤ c.own_latency_weight ∧ c.own_latency_weight ≤ 1) then
    Except.error "own_latency_weight must be between 0.0 and 1.0"
  else if c.rsi_overbought ≤ c.rsi_oversold then
    Except.error "rsi_overbought must be > rsi_oversold"
  else
    Except.ok ()

/-! ## plato/smoothing.rs -/

/-- `SavitzkyGolayFilter` (buffer head = oldest sample). -/
structure SavitzkyGolayFilter where
  window_size : Nat
  coefficients : List ℚ
  buffer : List ℚ
deriving DecidableEq, Repr

/-- `SavitzkyGolayFilter::new`: force the window odd, then pick the quadratic
coefficient row for windows 3/5/7/9/11 and a flat moving-average row
otherwise. -/
def SavitzkyGolayFilter.new (window_size : Nat) : SavitzkyGolayFilter :=
  let window_size := if window_size % 2 = 0 then window_size + 1 else window_size
  let coefficients : List ℚ :=
    match window_size with
    | 3 => [1/3, 1/3, 1/3]
    | 5 => ([-3, 12, 17, 12, -3] : List ℚ).map (fun c => c / 35)
    | 7 => ([-2, 3, 6, 7, 6, 3, -2] : List ℚ).map (fun c => c / 21)
    | 9 => ([-21, 14, 39, 54, 59, 54, 39, 14, -21] : List ℚ).map (fun c => c / 231)
    | 11 => ([-36, 9, 44, 69, 84, 89, 84, 69, 44, 9, -36] : List ℚ).map (fun c => c / 429)
    | _ => List.replicate window_size ((1 : ℚ) / window_size)
  { window_size := window_size, coefficients := coefficients, buffer := [] }

/-- `SavitzkyGolayFilter::calculate`: `0` on an empty buffer, the arithmetic
mean while filling, the coefficient dot product once full. -/
def SavitzkyGolayFilter.calculate (f : SavitzkyGolayFilter) : ℚ :=
  if f.buffer.isEmpty then
    0
  else if f.buffer.length < f.window_size then
    f.buffer.sum / f.buffer.length
  else
    ((f.buffer.zip f.coefficients).map (fun p => p.1 * p.2)).sum

/-- `SavitzkyGolayFilter::next` (state part: push, trim to the window). The
returned sample value is `calculate` of the new state. -/
def SavitzkyGolayFilter.next (f : SavitzkyGolayFilter) (value : ℚ) : SavitzkyGolayFilter :=
  let buffer := f.buffer ++ [value]
  let buffer := if f.window_size < buffer.length then buffer.tail else buffer
  { f with buffer := buffer }

/-- `SavitzkyGolayFilter::value`. -/
def SavitzkyGolayFilter.value (f : SavitzkyGolayFilter) : ℚ :=
  f.calculate

/-- `SavitzkyGolayFilter::is_ready`. -/
def SavitzkyGolayFilter.is_ready (f : SavitzkyGolayFilter) : Bool :=
  f.window_size ≤ f.buffer.length

/-! ## plato/rsi.rs -/

/-- The exact rational value of `f64::EPSILON`. -/
def f64_epsilon : ℚ := 1 / 2 ^ 52

/-- `RsiIndicator` (Wilder's RSI). -/
structure RsiIndicator where
  period : Nat
  values : List ℚ
  prev_value : Option ℚ
  avg_gain : ℚ
  avg_loss : ℚ
  periods_processed : Nat
deriving DecidableEq, Repr

/-- `RsiIndicator::new` (the Rust constructor asserts `period > 0`; theorems
carry that as a hypothesis). -/
def RsiIndicator.new (period : Nat) : RsiIndicator :=
  { period := period
    values := []
    prev_value := none
    avg_gain := 0
    avg_loss := 0
    periods_processed := 0 }

/-- `RsiIndicator::next` (state part): push the sample, update the Wilder
averages — accumulate then divide at the end of warmup, exponential update of
weight `(n−1)/n` afterwards — and remember the sample as `prev_value`. The
returned value is `calculate_rsi` of the new state. -/
def RsiIndicator.next (r : RsiIndicator) (value : ℚ) : RsiIndicator :=
  let values := r.values ++ [value]
  let values := if r.period + 1 < values.length then values.tail else values
  let r := { r with values := values }
  let r :=
    match r.prev_value with
    | some prev =>
      let change := value - prev
      let gain := max change 0
      let loss := max (-change) 0
      if r.periods_processed < r.period then
        let avg_gain := r.avg_gain + gain
        let avg_loss := r.avg_loss + loss
        let periods_processed := r.periods_processed + 1
        if periods_processed = r.period then
          { r with avg_gain := avg_gain / (r.period : ℚ)
                   avg_loss := avg_loss / (r.period : ℚ)
                   periods_processed := periods_processed }
        else
          { r with avg_gain := avg_gain
                   avg_loss := avg_loss
                   periods_processed := periods_processed }
      else
        let n : ℚ := (r.period : ℚ)
        { r with avg_gain := (r.avg_gain * (n - 1) + gain) / n
                 avg_loss := (r.avg_loss * (n - 1) + loss) / n }
    | none => r
  { r with prev_value := some value }

/-- `RsiIndicator::calculate_rsi`: `50` during warmup, `100` when
`avg_loss.abs() < f64::EPSILON`, else `100 − 100/(1 + avg_gain/avg_loss)`. -/
def RsiIndicator.calculate_rsi (r : RsiIndicator) : ℚ :=
  if r.periods_processed < r.period then
    50
  else if |r.avg_loss| < f64_epsilon then
    100
  else
    100 - (100 / (1 + r.avg_gain / r.avg_loss))

/-- `RsiIndicator::value`. -/
def RsiIndicator.value (r : RsiIndicator) : ℚ :=
  r.calculate_rsi

/-! ## plato/controller.rs -/

/-- `PlatoController`. -/
structure PlatoController where
  config : PlatoConfig
  current_latency : ℚ
  publish_frequency : ℚ
  our_latency : List ℚ
  peer_latency : List ℚ
  our_rsi_up : RsiIndicator
  peer_rsi_up : RsiIndicator
  our_rsi_down : RsiIndicator
  peer_rsi_down : RsiIndicator
  our_savgol_up : SavitzkyGolayFilter
  peer_savgol_up : SavitzkyGolayFilter
  our_savgol_down : SavitzkyGolayFilter
  peer_savgol_down : SavitzkyGolayFilter
  max_samples : Nat
  recently_missed_delivery : Bool
  timing_changed : Bool
deriving DecidableEq

/-- `PlatoController::new`: latency starts at `target_latency_secs`,
publishing frequency at `target_publishing_frequency_secs`. -/
def PlatoController.new (config : PlatoConfig) : PlatoController :=
  { config := config
    current_latency := config.target_latency_secs
    publish_frequency := config.target_publishing_frequency_secs
    our_latency := []
    peer_latency := []
    our_rsi_up := RsiIndicator.new config.rsi_increase_period
    peer_rsi_up := RsiIndicator.new config.rsi_increase_period
    our_rsi_down := RsiIndicator.new config.rsi_decrease_period
    peer_rsi_down := RsiIndicator.new config.rsi_decrease_period
    our_savgol_up := SavitzkyGolayFilter.new config.savgol_increase_window
    peer_savgol_up := SavitzkyGolayFilter.new config.savgol_increase_window
    our_savgol_down := SavitzkyGolayFilter.new config.savgol_decrease_window
    peer_savgol_down := SavitzkyGolayFilter.new config.savgol_decrease_window
    max_samples := 100
    recently_missed_delivery := false
    timing_changed := false }

/-- `PlatoController::record_our_latency`. -/
def PlatoController.record_our_latency (c : PlatoController) (latency : ℚ) : PlatoController :=
  let our_latency := c.our_latency ++ [latency]
  let our_latency := if c.max_samples < our_latency.length then our_latency.tail else our_latency
  { c with our_latency := our_latency
           our_rsi_up := c.our_rsi_up.next latency
           our_rsi_down := c.our_rsi_down.next latency
           our_savgol_up := c.our_savgol_up.next latency
           our_savgol_down := c.our_savgol_down.next latency }

/-- `PlatoController::record_peer_latency`. -/
def PlatoController.record_peer_latency (c : PlatoController) (latency : ℚ) : PlatoController :=
  let peer_latency := c.peer_latency ++ [latency]
  let peer_latency := if c.max_samples < peer_latency.length then peer_latency.tail else peer_latency
  { c with peer_latency := peer_latency
           peer_rsi_up := c.peer_rsi_up.next latency
           peer_rsi_down := c.peer_rsi_down.next latency
           peer_savgol_up := c.peer_savgol_up.next latency
           peer_savgol_down := c.peer_savgol_down.next latency }

/-- `PlatoController::weighted_latency`:
`w · SG_own + (1 − w) · SG_peer` on the increase-side smoothers. -/
def PlatoController.weighted_latency (c : PlatoController) : ℚ :=
  c.config.own_latency_weight * c.our_savgol_up.value
    + (1 - c.config.own_latency_weight) * c.peer_savgol_up.value

/-- `PlatoController::check_increasing_congestion`.  `α` stands for the
multiplier `rng.gen_range(1.01..1.10)` drawn in the throttle branch. -/
def PlatoController.check_increasing_congestion (c : PlatoController) (α : ℚ) :
    PlatoController :=
  if ¬(c.our_savgol_up.is_ready ∧ c.peer_savgol_up.is_ready) then
    c
  else
    let weighted_latest := c.weighted_latency
    let our_rsi := c.our_rsi_up.value
    let peer_rsi := c.peer_rsi_up.value
    if c.current_latency ≤ 0.5 * weighted_latest then
      let proposed := c.current_latency * 2
      if proposed < c.config.max_gossip_timeout_secs * 0.85 then
        { c with current_latency := proposed, timing_changed := true }
      else
        c
    else if c.config.rsi_overbought < our_rsi ∧ c.config.rsi_overbought < peer_rsi then
      { c with
          current_latency := min (c.current_latency * α) c.config.max_gossip_timeout_secs
          publish_frequency := min (c.publish_frequency * α) c.config.max_publishing_frequency_secs
          timing_changed := true }
    else
      c

/-- `PlatoController::check_decreasing_congestion`.  `α` stands for the
multiplier `rng.gen_range(0.90..0.99)` drawn in the accelerate branch. -/
def PlatoController.check_decreasing_congestion (c : PlatoController) (α : ℚ) :
    PlatoController :=
  if ¬(c.our_savgol_down.is_ready ∧ c.peer_savgol_down.is_ready) then
    c
  else
    let our_rsi := c.our_rsi_down.value
    let peer_rsi := c.peer_rsi_down.value
    if our_rsi < c.config.rsi_oversold ∧ peer_rsi < c.config.rsi_oversold then
      { c with
          current_latency := max (c.current_latency * α) c.config.minimum_latency_secs
          publish_frequency := max (c.publish_frequency * α) c.config.minimum_latency_secs
          timing_changed := true }
    else
      c

/-- The PLATO state-mutating calls quantified over in claim C3. -/
inductive PlatoOp where
  | recordOur (x : ℚ)
  | recordPeer (x : ℚ)
  | checkInc (α : ℚ)
  | checkDec (α : ℚ)

/-- Side condition on an op: the random multiplier lies in the half-open
range `gen_range` draws from. -/
def PlatoOp.valid : PlatoOp → Prop
  | .recordOur _ => True
  | .recordPeer _ => True
  | .checkInc α => 1.01 ≤ α ∧ α < 1.10
  | .checkDec α => 0.90 ≤ α ∧ α < 0.99

/-- Apply one PLATO call. -/
def PlatoController.applyOp (c : PlatoController) : PlatoOp → PlatoController
  | .recordOur x => c.record_our_latency x
  | .recordPeer x => c.record_peer_latency x
  | .checkInc α => c.check_increasing_congestion α
  | .checkDec α => c.check_decreasing_congestion α

/-! ## Claim C4: round-key stability across forwards -/

/-- Claim C4: for every batch `b` and key pair `kp`,
`compute_hash (become_sender b kp) = compute_hash b`: the round key reads
exactly `{batch_id, creator_ecdsa, merkle_root, creator_signature}`, and
re-signing as a new sender changes only `sender_ecdsa` and
`sender_signature`, so the hash is identical at every forwarding hop. -/
theorem C4_round_key_stable {M : Type} (cp : CryptoPrimitives)
    (b : BatchedMessages M) (kp : KeyPair) :
    (b.become_sender cp kp).compute_hash cp = b.compute_hash cp :=
  rfl

/-! ## Claim C10: an unsigned message never verifies -/

/-- Claim C10: every `Echo`, `ProtocolResponse` and `BatchedMessages` value
whose signature field is `none` fails verification — for every choice of the
underlying crypto primitives. -/
theorem C10_unsigned_never_verifies (cp : CryptoPrimitives) :
    (∀ e : Echo, e.signature = none → e.verify cp = false)
    ∧ (∀ r : ProtocolResponse, r.signature = none → r.verify cp = false)
    ∧ (∀ (M : Type) (b : BatchedMessages M),
        (b.creator_signature = none → b.verify_creator_signature cp = false)
        ∧ (b.sender_signature = none → b.verify_sender_signature cp = false)) := by
  refine ⟨fun e h => ?_, fun r h => ?_, fun M b => ⟨fun h => ?_, fun h => ?_⟩⟩
  · unfold Echo.verify
    rw [h]
  · unfold ProtocolResponse.verify
    rw [h]
  · unfold BatchedMessages.verify_creator_signature
    rw [h]
  · unfold BatchedMessages.verify_sender_signature
    rw [h]

/-- A trivial instantiation of the crypto primitives, used only to witness
theorems that quantify over them. -/
def trivialCrypto : CryptoPrimitives :=
  { sign := fun _ _ => ⟨"sig"⟩
    verifierFromKey := fun pk => some pk
    verifyOk := fun _ _ _ => true
    sha256_hex := fun _ => "h"
    jsonStable := fun _ _ _ _ => []
    creatorJson := fun _ _ _ _ => []
    senderJson := fun _ _ _ => []
    echoJson := fun _ _ _ _ => []
    responseJson := fun _ _ _ _ => [] }

/-- An unsigned `Echo`. -/
def unsignedEcho : Echo :=
  { echo_type := .echoSubscribe, topic := "t", sender := ⟨"pk"⟩
    signature := none, timestamp := 0 }

/-- An unsigned `ProtocolResponse`. -/
def unsignedResponse : ProtocolResponse :=
  { response_type := .echoResponse, topic := "t", sender := ⟨"pk"⟩
    signature := none, timestamp := 0 }

/-- A fully unsigned batch. -/
def unsignedBatch : BatchedMessages Unit :=
  { batch_id := "b-1", creator_ecdsa := ⟨"c"⟩, sender_ecdsa := ⟨"s"⟩
    merkle_root := "root", batch_size := 1, messages := [()]
    vector_clock := ⟨[]⟩, creator_signature := none, sender_signature := none
    created_at := 0 }

/-- Witness for C10 at concrete unsigned messages. -/
theorem C10_witness :
    unsignedEcho.verify trivialCrypto = false
    ∧ unsignedResponse.verify trivialCrypto = false
    ∧ unsignedBatch.verify_creator_signature trivialCrypto = false
    ∧ unsignedBatch.verify_sender_signature trivialCrypto = false :=
  ⟨(C10_unsigned_never_verifies trivialCrypto).1 unsignedEcho rfl,
   (C10_unsigned_never_verifies trivialCrypto).2.1 unsignedResponse rfl,
   ((C10_unsigned_never_verifies trivialCrypto).2.2 Unit unsignedBatch).1 rfl,
   ((C10_unsigned_never_verifies trivialCrypto).2.2 Unit unsignedBatch).2 rfl⟩

/-! ## Claim C5: validator bound on ready_threshold -/

/-- An `At2Config` with odd `echo_sample_size = 5` whose `ready_threshold = 3`
is `⌈5/2⌉ = 3`, strictly below the claimed majority bound `⌈5/2⌉+1 = 4`. -/
def at2OddSample : At2Config :=
  { echo_sample_size := 5
    ready_sample_size := 5
    delivery_sample_size := 5
    ready_threshold := 3
    feedback_threshold := 4
    delivery_threshold := 5 }

/-- Counterexample to claim C5 as stated: the validator accepts a
configuration with `ready_threshold < ⌈echo_sample_size/2⌉ + 1` (an odd
sample size; `⌈n/2⌉ = (n+1)/2` in `Nat`). -/
theorem C5_counterexample :
    at2OddSample.validate = Except.ok ()
    ∧ at2OddSample.ready_threshold
        < (at2OddSample.echo_sample_size + 1) / 2 + 1 := by
  constructor
  · rfl
  · decide

/-- Claim C5, amended: the bound the validator actually enforces is
`ready_threshold ≥ ⌊echo_sample_size/2⌋ + 1` (the strict-majority bound;
equal to `⌈n/2⌉+1` for even `n` but only `⌈n/2⌉` for odd `n`):
`validate` errors on every configuration below that bound, and every
configuration it accepts satisfies it. -/
theorem C5_amended (c : At2Config) :
    (c.validate = Except.ok () → c.echo_sample_size / 2 + 1 ≤ c.ready_threshold)
    ∧ (c.ready_threshold < c.echo_sample_size / 2 + 1 →
        c.validate ≠ Except.ok ()) := by
  have h : c.validate = Except.ok () → c.echo_sample_size / 2 + 1 ≤ c.ready_threshold := by
    intro hok
    simp only [At2Config.validate] at hok
    split at hok
    · exact absurd hok (by simp)
    · split at hok
      · exact absurd hok (by simp)
      · omega
  exact ⟨h, fun hlt hok => absurd (h hok) (by omega)⟩

/-- Witness for C5 (amended) at the default configuration. -/
theorem C5_amended_witness :
    At2Config.default.echo_sample_size / 2 + 1 ≤ At2Config.default.ready_threshold :=
  (C5_amended At2Config.default).1 rfl

/-! ## Claim C6: PLATO config validation chain -/

/-- A `PlatoConfig` with `target_latency = minimum_latency = 1`. -/
def platoEqualLat : PlatoConfig :=
  { PlatoConfig.default with target_latency_secs := 1, minimum_latency_secs := 1 }

/-- Counterexample to claim C6 as stated: the validator accepts a
configuration whose `target_latency` equals `minimum_latency` (the code only
rejects `target < minimum`). -/
theorem C6_counterexample :
    platoEqualLat.target_latency_secs = platoEqualLat.minimum_latency_secs
    ∧ platoEqualLat.validate = Except.ok () := by
  constructor
  · rfl
  · norm_num [PlatoConfig.validate, platoEqualLat, PlatoConfig.default]

/-- Claim C6, amended: `validate` enforces
`target_latency ≥ minimum_latency > 0` (non-strict on the left): every
configuration with `minimum_latency ≤ 0` is rejected, and every accepted
configuration satisfies `0 < minimum_latency ≤ target_latency`. -/
theorem C6_amended (c : PlatoConfig) :
    (c.minimum_latency_secs ≤ 0 → c.validate ≠ Except.ok ())
    ∧ (c.validate = Except.ok () →
        0 < c.minimum_latency_secs
        ∧ c.minimum_latency_secs ≤ c.target_latency_secs) := by
  have h : c.validate = Except.ok () →
      0 < c.minimum_latency_secs ∧ c.minimum_latency_secs ≤ c.target_latency_secs := by
    intro hok
    unfold PlatoConfig.validate at hok
    split at hok
    · exact absurd hok (by simp)
    · split at hok
      · exact absurd hok (by simp)
      · rename_i hmin htar
        exact ⟨lt_of_not_ge hmin, le_of_not_gt htar⟩
  refine ⟨fun hle hok => ?_, h⟩
  exact absurd (h hok).1 (not_lt.mpr hle)

/-- Witness for C6 (amended) at the default configuration. -/
theorem C6_amended_witness :
    0 < PlatoConfig.default.minimum_latency_secs
    ∧ PlatoConfig.default.minimum_latency_secs
        ≤ PlatoConfig.default.target_latency_secs :=
  (C6_amended PlatoConfig.default).2
    (by norm_num [PlatoConfig.validate, PlatoConfig.default])

/-! ## Claim C9: mark_delivered appends unconditionally -/

/-- The eviction loop does nothing when the journal already fits. -/
theorem evictOldest_of_le (l : List String) (max : Nat) (h : l.length ≤ max) :
    evictOldest l max = (l, []) := by
  cases l with
  | nil => rfl
  | cons a t =>
    simp only [evictOldest]
    rw [if_neg (not_lt.mpr h)]

/-- Setting the delivered flag never creates a registry entry: a key absent
before `setRoundDelivered` is absent after. -/
theorem lookup_setRoundDelivered_none (rounds : List (String × GossipRound))
    (k hash : String) (h : rounds.lookup k = none) :
    (setRoundDelivered rounds hash).lookup k = none := by
  induction rounds with
  | nil => rfl
  | cons p t ih =>
    rw [List.lookup_cons] at h
    by_cases hk : (k == p.1) = true
    · simp [hk] at h
    · rw [Bool.not_eq_true] at hk
      rw [hk] at h
      rw [setRoundDelivered, List.map_cons]
      by_cases hp : p.1 = hash
      · rw [if_pos hp, List.lookup_cons]
        simpa [hk, setRoundDelivered] using ih h
      · rw [if_neg hp, List.lookup_cons]
        simpa [hk, setRoundDelivered] using ih h

/-- Claim C9: `mark_delivered k` appends `k` to the delivered journal
unconditionally.  With no registry entry for `k` (and room in the journal so
nothing is evicted), `was_recently_delivered k` becomes true while
`is_delivered k` stays false; marking twice inserts two journal entries, both
counted against the `max_delivered` capacity. -/
theorem C9_mark_delivered_unconditional (M : Type) (s : GossipState M) (k : String) :
    (s.get_round k = none → s.delivered_hashes.length < s.max_delivered →
      (s.mark_delivered k).was_recently_delivered k = true
      ∧ (s.mark_delivered k).is_delivered k = false)
    ∧ (s.delivered_hashes.length + 2 ≤ s.max_delivered →
      ((s.mark_delivered k).mark_delivered k).delivered_hashes.count k
          = s.delivered_hashes.count k + 2
      ∧ ((s.mark_delivered k).mark_delivered k).delivered_hashes.length
          = s.delivered_hashes.length + 2) := by
  constructor
  · intro hnone hlen
    have hle : (s.delivered_hashes ++ [k]).length ≤ s.max_delivered := by
      simp only [List.length_append, List.length_singleton]
      omega
    constructor
    · simp only [GossipState.mark_delivered, evictOldest_of_le _ _ hle,
        GossipState.was_recently_delivered]
      simp
    · simp only [GossipState.mark_delivered, evictOldest_of_le _ _ hle,
        GossipState.is_delivered, GossipState.get_round]
      rw [show (List.filter (fun p => !(([] : List String).contains p.1))
            (setRoundDelivered s.rounds k)) = setRoundDelivered s.rounds k by simp]
      rw [lookup_setRoundDelivered_none s.rounds k k hnone]
      rfl
  · intro h2
    have hle1 : (s.delivered_hashes ++ [k]).length ≤ s.max_delivered := by
      simp only [List.length_append, List.length_singleton]
      omega
    have hle2 : ((s.delivered_hashes ++ [k]) ++ [k]).length ≤ s.max_delivered := by
      simp only [List.length_append, List.length_singleton]
      omega
    have hj1 : (s.mark_delivered k).delivered_hashes = s.delivered_hashes ++ [k] := by
      simp only [GossipState.mark_delivered, evictOldest_of_le _ _ hle1]
    have hmax : (s.mark_delivered k).max_delivered = s.max_delivered := by
      simp only [GossipState.mark_delivered, evictOldest_of_le _ _ hle1]
    have hj2 : ((s.mark_delivered k).mark_delivered k).delivered_hashes
        = (s.delivered_hashes ++ [k]) ++ [k] := by
      simp only [GossipState.mark_delivered, hj1, hmax]
      rw [evictOldest_of_le _ _ hle1]
      dsimp only
      rw [evictOldest_of_le _ _ hle2]
    rw [hj2]
    constructor
    · simp
    · simp

/-- Witness for C9 at the freshly constructed gossip state. -/
theorem C9_witness :
    ((GossipState.new Unit).mark_delivered "k").was_recently_delivered "k" = true
    ∧ ((GossipState.new Unit).mark_delivered "k").is_delivered "k" = false
    ∧ (((GossipState.new Unit).mark_delivered "k").mark_delivered "k").delivered_hashes.count "k"
        = (GossipState.new Unit).delivered_hashes.count "k" + 2 := by
  refine ⟨?_, ?_, ?_⟩
  · exact ((C9_mark_delivered_unconditional Unit (GossipState.new Unit) "k").1 rfl
      (by norm_num [GossipState.new])).1
  · exact ((C9_mark_delivered_unconditional Unit (GossipState.new Unit) "k").1 rfl
      (by norm_num [GossipState.new])).2
  · exact ((C9_mark_delivered_unconditional Unit (GossipState.new Unit) "k").2
      (by norm_num [GossipState.new])).1

/-! ## Claims C1 and C2: delivery and publication discipline -/

/-- Number of sink invocations in an action list. -/
def countDeliver : List NodeAction → Nat
  | [] => 0
  | NodeAction.deliverBatch :: t => countDeliver t + 1
  | NodeAction.publishReady :: t => countDeliver t

/-- `countDeliver` is additive over concatenation. -/
theorem countDeliver_append (a b : List NodeAction) :
    countDeliver (a ++ b) = countDeliver a + countDeliver b := by
  induction a with
  | nil => simp [countDeliver]
  | cons x t ih =>
    cases x with
    | publishReady => simp [countDeliver, ih]
    | deliverBatch =>
      show countDeliver (t ++ b) + 1 = countDeliver t + 1 + countDeliver b
      rw [ih]
      omega

/-- Delivery budget of a round: one sink invocation may still happen while
the `delivered` flag is down, none once it is up. -/
def deliveryBudget (r : GossipRound) : Nat :=
  if r.delivered then 0 else 1

/-- Each handler spends the delivery budget: the sink invocations it emits
plus the budget left afterwards never exceed the budget before. -/
theorem handleEvent_budget (cfg : ConsensusParams) (r : GossipRound) (e : RoundEvent) :
    countDeliver (handleEvent cfg r e).2 + deliveryBudget (handleEvent cfg r e).1
      ≤ deliveryBudget r := by
  cases e with
  | echoResponse peer =>
    simp only [handleEvent]
    split
    · simp [countDeliver, deliveryBudget, GossipRound.record_echo]
    · simp [countDeliver, deliveryBudget, GossipRound.record_echo]
  | readyResponse peer =>
    simp only [handleEvent]
    split <;> rename_i hamp
    all_goals split <;> rename_i hdel
    all_goals
      simp_all [countDeliver, countDeliver_append, deliveryBudget,
        GossipRound.record_ready]
  | readySubscribe =>
    simp only [handleEvent]
    split <;> simp [countDeliver, deliveryBudget]
  | gossipEchoCheck =>
    simp only [handleEvent]
    split <;> simp [countDeliver, deliveryBudget]
  | gossipReadyCheck =>
    simp only [handleEvent]
    split
    · split <;> simp_all [countDeliver, deliveryBudget]
    · simp [countDeliver, deliveryBudget]

/-- The budget bound extends to whole event traces. -/
theorem runRound_budget (cfg : ConsensusParams) (events : List RoundEvent)
    (r : GossipRound) :
    countDeliver (runRound cfg r events).2 + deliveryBudget (runRound cfg r events).1
      ≤ deliveryBudget r := by
  induction events generalizing r with
  | nil => simp [runRound, countDeliver]
  | cons e es ih =>
    simp only [runRound, countDeliver_append]
    have h1 := handleEvent_budget cfg r e
    have h2 := ih (handleEvent cfg r e).1
    omega

/-- Claim C1: for every round key, the delivered-log sink is invoked at most
once per node.  Both delivery sites (the subscriber-path `ReadyResponse`
handler and the creator's gossip loop after the ready phase) check the
round's `delivered` flag before invoking the sink and set it when
delivering, so along any sequence of handled events on the same round,
starting from the fresh round, at most one `deliverBatch` action is ever
emitted — a second threshold crossing never reaches the sink again. -/
theorem C1_no_double_delivery (cfg : ConsensusParams) (hash : String)
    (events : List RoundEvent) :
    countDeliver (runRound cfg (GossipRound.new hash) events).2 ≤ 1 := by
  have h := runRound_budget cfg events (GossipRound.new hash)
  rw [show deliveryBudget (GossipRound.new hash) = 1 from rfl] at h
  omega

/-- Claim C2: a node publishes its own `ReadyResponse` for a round only when
either `|echo_received| ≥ ready_threshold` or
`|ready_received| ≥ feedback_threshold` holds: every handler that emits
`publishReady` (the `EchoResponse` handler, the feedback-amplification
branch of the `ReadyResponse` handler, the `ReadySubscribe` handler and the
creator's echo-phase loop) establishes the disjunction in the resulting
round state; and since the witness sets only grow, the disjunction has first
become true no later than the publication. -/
theorem C2_threshold_safety (cfg : ConsensusParams) (r : GossipRound)
    (e : RoundEvent) :
    (NodeAction.publishReady ∈ (handleEvent cfg r e).2 →
      cfg.ready_threshold ≤ (handleEvent cfg r e).1.echo_received.card
      ∨ cfg.feedback_threshold ≤ (handleEvent cfg r e).1.ready_received.card)
    ∧ r.echo_received ⊆ (handleEvent cfg r e).1.echo_received
    ∧ r.ready_received ⊆ (handleEvent cfg r e).1.ready_received := by
  cases e with
  | echoResponse peer =>
    simp only [handleEvent]
    split
    · rename_i hcond
      exact ⟨fun _ => Or.inl (by simpa [GossipRound.record_echo] using hcond.2),
        by simp [GossipRound.record_echo, Finset.subset_insert],
        by simp [GossipRound.record_echo]⟩
    · exact ⟨by simp, by simp [GossipRound.record_echo, Finset.subset_insert],
        by simp [GossipRound.record_echo]⟩
  | readyResponse peer =>
    simp only [handleEvent]
    split <;> rename_i hamp
    · split <;> rename_i hdel
      · refine ⟨fun _ => Or.inr ?_, ?_, ?_⟩
        · simpa [GossipRound.record_ready] using hamp.2
        · simp [GossipRound.record_ready]
        · simp [GossipRound.record_ready, Finset.subset_insert]
      · refine ⟨fun _ => Or.inr ?_, ?_, ?_⟩
        · simpa [GossipRound.record_ready] using hamp.2
        · simp [GossipRound.record_ready]
        · simp [GossipRound.record_ready, Finset.subset_insert]
    · split <;> rename_i hdel
      · refine ⟨fun hmem => ?_, ?_, ?_⟩
        · simp at hmem
        · simp [GossipRound.record_ready]
        · simp [GossipRound.record_ready, Finset.subset_insert]
      · refine ⟨fun hmem => ?_, ?_, ?_⟩
        · simp at hmem
        · simp [GossipRound.record_ready]
        · simp [GossipRound.record_ready, Finset.subset_insert]
  | readySubscribe =>
    simp only [handleEvent]
    split
    · rename_i hcond
      exact ⟨fun _ => hcond, Finset.Subset.refl _, Finset.Subset.refl _⟩
    · exact ⟨by simp, Finset.Subset.refl _, Finset.Subset.refl _⟩
  | gossipEchoCheck =>
    simp only [handleEvent]
    split
    · rename_i hcond
      exact ⟨fun _ => Or.inl hcond, Finset.Subset.refl _, Finset.Subset.refl _⟩
    · exact ⟨by simp, Finset.Subset.refl _, Finset.Subset.refl _⟩
  | gossipReadyCheck =>
    simp only [handleEvent]
    split
    · split
      · exact ⟨by simp, Finset.Subset.refl _, Finset.Subset.refl _⟩
      · exact ⟨by simp, Finset.Subset.refl _, Finset.Subset.refl _⟩
    · exact ⟨by simp, Finset.Subset.refl _, Finset.Subset.refl _⟩

/-- A one-peer threshold configuration used to witness C2. -/
def tinyParams : ConsensusParams :=
  { ready_threshold := 1, feedback_threshold := 2, delivery_threshold := 3 }

/-- Witness for C2: the `EchoResponse` handler on a fresh round with
`ready_threshold = 1` publishes, and the guard disjunction indeed holds. -/
theorem C2_witness :
    tinyParams.ready_threshold
        ≤ (handleEvent tinyParams (GossipRound.new "h") (.echoResponse "p")).1.echo_received.card
    ∨ tinyParams.feedback_threshold
        ≤ (handleEvent tinyParams (GossipRound.new "h") (.echoResponse "p")).1.ready_received.card :=
  (C2_threshold_safety tinyParams (GossipRound.new "h") (.echoResponse "p")).1
    (by simp [handleEvent, GossipRound.new, GossipRound.record_echo, tinyParams])

/-! ## Claim C7: PLATO fast-forward -/

/-- Claim C7: on a tick where both increase-side Savitzky-Golay smoothers are
ready and `current_latency ≤ 0.5 · weighted_latency`,
`check_increasing_congestion` doubles the latency and sets `timing_changed`
when `2 · current_latency < 0.85 · max_gossip_timeout`, and leaves the
controller entirely unchanged when the doubled latency would reach or exceed
that bound. -/
theorem C7_fast_forward (c : PlatoController) (α : ℚ)
    (h1 : c.our_savgol_up.is_ready = true)
    (h2 : c.peer_savgol_up.is_ready = true)
    (h3 : c.current_latency ≤ 0.5 * c.weighted_latency) :
    (c.current_latency * 2 < c.config.max_gossip_timeout_secs * 0.85 →
      (c.check_increasing_congestion α).current_latency = c.current_latency * 2
      ∧ (c.check_increasing_congestion α).timing_changed = true)
    ∧ (¬(c.current_latency * 2 < c.config.max_gossip_timeout_secs * 0.85) →
      c.check_increasing_congestion α = c) := by
  simp only [PlatoController.check_increasing_congestion, h1, h2]
  rw [if_neg (by simp)]
  rw [if_pos h3]
  constructor
  · intro hacc
    rw [if_pos hacc]
    exact ⟨rfl, rfl⟩
  · intro hrej
    rw [if_neg hrej]

/-- The default PLATO configuration with a 3-sample increase smoother. -/
def ffConfig : PlatoConfig :=
  { PlatoConfig.default with savgol_increase_window := 3 }

/-- A controller primed with three own and three peer latency samples of 10 s
while `current_latency = 2.5 s`. -/
def ffState : PlatoController :=
  ((((((PlatoController.new ffConfig).record_our_latency 10).record_our_latency
      10).record_our_latency 10).record_peer_latency 10).record_peer_latency
      10).record_peer_latency 10

/-- Witness for C7: the primed controller doubles `2.5 → 5` (since
`5 < 0.85 · 60 = 51`) and reports the timing change. -/
theorem C7_witness :
    (ffState.check_increasing_congestion 1.05).current_latency = ffState.current_latency * 2
    ∧ (ffState.check_increasing_congestion 1.05).timing_changed = true := by
  have hw : ffState.weighted_latency = 10 := by
    norm_num [ffState, ffConfig, PlatoController.new, PlatoController.record_our_latency,
      PlatoController.record_peer_latency, PlatoController.weighted_latency,
      SavitzkyGolayFilter.new, SavitzkyGolayFilter.next, SavitzkyGolayFilter.value,
      SavitzkyGolayFilter.calculate, PlatoConfig.default, RsiIndicator.new, RsiIndicator.next]
  have h3 : ffState.current_latency ≤ 0.5 * ffState.weighted_latency := by
    rw [hw, show ffState.current_latency = (2.5 : ℚ) from rfl]
    norm_num
  have hacc : ffState.current_latency * 2
      < ffState.config.max_gossip_timeout_secs * 0.85 := by
    rw [show ffState.current_latency = (2.5 : ℚ) from rfl,
      show ffState.config.max_gossip_timeout_secs = (60 : ℚ) from rfl]
    norm_num
  exact (C7_fast_forward ffState 1.05 rfl rfl h3).1 hacc

/-! ## Claim C3: PLATO bounds -/

/-- The facts established by a successful `PlatoConfig::validate`. -/
theorem PlatoConfig.validate_ok {c : PlatoConfig} (h : c.validate = Except.ok ()) :
    0 < c.minimum_latency_secs
    ∧ c.minimum_latency_secs ≤ c.target_latency_secs
    ∧ c.target_latency_secs < c.max_gossip_timeout_secs := by
  unfold PlatoConfig.validate at h
  split at h
  · exact absurd h (by simp)
  · split at h
    · exact absurd h (by simp)
    · split at h
      · exact absurd h (by simp)
      · rename_i hmin htar hmax
        exact ⟨lt_of_not_ge hmin, le_of_not_gt htar, lt_of_not_ge hmax⟩

/-- The PLATO bounds invariant, relative to the controller's own config. -/
def PlatoInv (c : PlatoController) : Prop :=
  c.config.minimum_latency_secs ≤ c.current_latency
  ∧ c.current_latency ≤ c.config.max_gossip_timeout_secs
  ∧ c.config.minimum_latency_secs ≤ c.publish_frequency
  ∧ c.publish_frequency ≤ c.config.max_publishing_frequency_secs

/-- No PLATO call touches the configuration. -/
theorem applyOp_config (c : PlatoController) (op : PlatoOp) :
    (c.applyOp op).config = c.config := by
  cases op with
  | recordOur x => rfl
  | recordPeer x => rfl
  | checkInc α =>
    simp only [PlatoController.applyOp, PlatoController.check_increasing_congestion]
    split
    · rfl
    · split
      · split
        · rfl
        · rfl
      · split
        · rfl
        · rfl
  | checkDec α =>
    simp only [PlatoController.applyOp, PlatoController.check_decreasing_congestion]
    split
    · rfl
    · split
      · rfl
      · rfl

/-- Each PLATO call preserves the bounds invariant, given a positive minimum
below both ceilings and a multiplier from the drawn range. -/
theorem applyOp_preserves_inv (c : PlatoController) (op : PlatoOp)
    (hmin : 0 < c.config.minimum_latency_secs)
    (hml : c.config.minimum_latency_secs ≤ c.config.max_gossip_timeout_secs)
    (hmp : c.config.minimum_latency_secs ≤ c.config.max_publishing_frequency_secs)
    (hv : op.valid) (h : PlatoInv c) : PlatoInv (c.applyOp op) := by
  obtain ⟨i1, i2, i3, i4⟩ := h
  cases op with
  | recordOur x =>
    exact ⟨i1, i2, i3, i4⟩
  | recordPeer x =>
    exact ⟨i1, i2, i3, i4⟩
  | checkInc α =>
    obtain ⟨ha1, ha2⟩ := hv
    simp only [PlatoController.applyOp, PlatoController.check_increasing_congestion]
    split
    · exact ⟨i1, i2, i3, i4⟩
    · split
      · split
        · rename_i hacc
          refine ⟨?_, ?_, ?_, ?_⟩ <;> dsimp only
          · linarith
          · linarith
          · exact i3
          · exact i4
        · exact ⟨i1, i2, i3, i4⟩
      · split
        · have hl0 : 0 ≤ c.current_latency := le_trans hmin.le i1
          have hp0 : 0 ≤ c.publish_frequency := le_trans hmin.le i3
          have hlat : c.current_latency ≤ c.current_latency * α := by nlinarith
          have hpf : c.publish_frequency ≤ c.publish_frequency * α := by nlinarith
          refine ⟨?_, ?_, ?_, ?_⟩ <;> dsimp only
          · exact le_min (by linarith) hml
          · exact min_le_right _ _
          · exact le_min (by linarith) hmp
          · exact min_le_right _ _
        · exact ⟨i1, i2, i3, i4⟩
  | checkDec α =>
    obtain ⟨ha1, ha2⟩ := hv
    simp only [PlatoController.applyOp, PlatoController.check_decreasing_congestion]
    split
    · exact ⟨i1, i2, i3, i4⟩
    · split
      · have hl0 : 0 ≤ c.current_latency := le_trans hmin.le i1
        have hp0 : 0 ≤ c.publish_frequency := le_trans hmin.le i3
        have hlat : c.current_latency * α ≤ c.current_latency := by nlinarith
        have hpf : c.publish_frequency * α ≤ c.publish_frequency := by nlinarith
        refine ⟨?_, ?_, ?_, ?_⟩ <;> dsimp only
        · exact le_max_right _ _
        · exact max_le (by linarith) hml
        · exact le_max_right _ _
        · exact max_le (by linarith) hmp
      · exact ⟨i1, i2, i3, i4⟩

/-- The invariant extends to arbitrary valid call sequences, and the
configuration is unchanged throughout. -/
theorem foldl_preserves_inv (ops : List PlatoOp) (c : PlatoController)
    (hmin : 0 < c.config.minimum_latency_secs)
    (hml : c.config.minimum_latency_secs ≤ c.config.max_gossip_timeout_secs)
    (hmp : c.config.minimum_latency_secs ≤ c.config.max_publishing_frequency_secs)
    (hops : ∀ op ∈ ops, op.valid) (h : PlatoInv c) :
    PlatoInv (ops.foldl PlatoController.applyOp c)
    ∧ (ops.foldl PlatoController.applyOp c).config = c.config := by
  induction ops generalizing c with
  | nil => exact ⟨h, rfl⟩
  | cons op t ih =>
    simp only [List.foldl_cons]
    have hc := applyOp_config c op
    have step := applyOp_preserves_inv c op hmin hml hmp (hops op (by simp)) h
    have rest := ih (c.applyOp op) (by rw [hc]; exact hmin) (by rw [hc]; exact hml)
      (by rw [hc]; exact hmp) (fun o ho => hops o (by simp [ho])) step
    exact ⟨rest.1, by rw [rest.2, hc]⟩

/-- A configuration the validator accepts whose initial publishing frequency
already exceeds `max_publishing_frequency` (`validate` never inspects the
publishing-frequency fields). -/
def pfBadConfig : PlatoConfig :=
  { PlatoConfig.default with
      target_publishing_frequency_secs := 100
      max_publishing_frequency_secs := 10 }

/-- Counterexample to claim C3 as stated: an accepted configuration whose
controller violates `current_publishing_frequency ≤ max_publishing_frequency`
already in the initial state (the empty call sequence). -/
theorem C3_counterexample :
    pfBadConfig.validate = Except.ok ()
    ∧ ¬((([] : List PlatoOp).foldl PlatoController.applyOp
          (PlatoController.new pfBadConfig)).publish_frequency
        ≤ pfBadConfig.max_publishing_frequency_secs) := by
  constructor
  · norm_num [PlatoConfig.validate, pfBadConfig, PlatoConfig.default]
  · show ¬((100 : ℚ) ≤ 10)
    norm_num

/-- Claim C3, amended: for every configuration accepted by `validate` whose
publishing-frequency targets additionally satisfy
`minimum_latency ≤ target_publishing_frequency ≤ max_publishing_frequency`
(a side condition `validate` does not check), every finite sequence of
`record_our_latency`, `record_peer_latency`, `check_increasing_congestion`
and `check_decreasing_congestion` calls keeps
`minimum_latency ≤ current_latency ≤ max_gossip_timeout` and
`minimum_latency ≤ current_publishing_frequency ≤ max_publishing_frequency`,
starting from the initial state. -/
theorem C3_amended (cfg : PlatoConfig)
    (hok : cfg.validate = Except.ok ())
    (hpf1 : cfg.minimum_latency_secs ≤ cfg.target_publishing_frequency_secs)
    (hpf2 : cfg.target_publishing_frequency_secs ≤ cfg.max_publishing_frequency_secs)
    (ops : List PlatoOp) (hops : ∀ op ∈ ops, op.valid) :
    cfg.minimum_latency_secs
        ≤ (ops.foldl PlatoController.applyOp (PlatoController.new cfg)).current_latency
    ∧ (ops.foldl PlatoController.applyOp (PlatoController.new cfg)).current_latency
        ≤ cfg.max_gossip_timeout_secs
    ∧ cfg.minimum_latency_secs
        ≤ (ops.foldl PlatoController.applyOp (PlatoController.new cfg)).publish_frequency
    ∧ (ops.foldl PlatoController.applyOp (PlatoController.new cfg)).publish_frequency
        ≤ cfg.max_publishing_frequency_secs := by
  obtain ⟨f1, f2, f3⟩ := PlatoConfig.validate_ok hok
  have hinv0 : PlatoInv (PlatoController.new cfg) := ⟨f2, f3.le, hpf1, hpf2⟩
  have hi := foldl_preserves_inv ops (PlatoController.new cfg) f1 (f2.trans f3.le)
    (hpf1.trans hpf2) hops hinv0
  obtain ⟨⟨g1, g2, g3, g4⟩, hcfg⟩ := hi
  rw [show (PlatoController.new cfg).config = cfg from rfl] at hcfg
  rw [hcfg] at g1 g2 g3 g4
  exact ⟨g1, g2, g3, g4⟩

/-- Witness for C3 (amended) at the default configuration and a two-call
sequence. -/
theorem C3_amended_witness :
    PlatoConfig.default.minimum_latency_secs
        ≤ (([PlatoOp.checkInc 1.05, PlatoOp.recordOur 3].foldl PlatoController.applyOp
            (PlatoController.new PlatoConfig.default)).current_latency)
    ∧ (([PlatoOp.checkInc 1.05, PlatoOp.recordOur 3].foldl PlatoController.applyOp
            (PlatoController.new PlatoConfig.default)).current_latency)
        ≤ PlatoConfig.default.max_gossip_timeout_secs
    ∧ PlatoConfig.default.minimum_latency_secs
        ≤ (([PlatoOp.checkInc 1.05, PlatoOp.recordOur 3].foldl PlatoController.applyOp
            (PlatoController.new PlatoConfig.default)).publish_frequency)
    ∧ (([PlatoOp.checkInc 1.05, PlatoOp.recordOur 3].foldl PlatoController.applyOp
            (PlatoController.new PlatoConfig.default)).publish_frequency)
        ≤ PlatoConfig.default.max_publishing_frequency_secs := by
  refine C3_amended PlatoConfig.default ?_ ?_ ?_ _ ?_
  · norm_num [PlatoConfig.validate, PlatoConfig.default]
  · norm_num [PlatoConfig.default]
  · norm_num [PlatoConfig.default]
  · intro op hop
    simp only [List.mem_cons, List.mem_singleton] at hop
    rcases hop with h | h | h
    · subst h
      constructor
      · norm_num
      · norm_num
    · subst h
      trivial
    · cases h

/-! ## Claim C8: RSI output -/

/-- The RSI state after feeding an input sequence to a fresh period-`n`
indicator. -/
def rsiRun (n : Nat) (xs : List ℚ) : RsiIndicator :=
  xs.foldl RsiIndicator.next (RsiIndicator.new n)

/-- One `next` step keeps the Wilder averages non-negative and the period
unchanged. -/
theorem rsi_next_state (r : RsiIndicator) (x : ℚ) (hp : 0 < r.period)
    (hg : 0 ≤ r.avg_gain) (hl : 0 ≤ r.avg_loss) :
    0 ≤ (r.next x).avg_gain ∧ 0 ≤ (r.next x).avg_loss
    ∧ (r.next x).period = r.period := by
  have hn1 : (1 : ℚ) ≤ (r.period : ℚ) := by exact_mod_cast hp
  cases hpv : r.prev_value with
  | none =>
    simp only [RsiIndicator.next, hpv]
    exact ⟨hg, hl, trivial⟩
  | some prev =>
    simp only [RsiIndicator.next, hpv]
    split
    · split
      · refine ⟨?_, ?_, rfl⟩ <;> dsimp only
        · exact div_nonneg (add_nonneg hg (le_max_right _ _)) (by positivity)
        · exact div_nonneg (add_nonneg hl (le_max_right _ _)) (by positivity)
      · refine ⟨?_, ?_, rfl⟩ <;> dsimp only
        · exact add_nonneg hg (le_max_right _ _)
        · exact add_nonneg hl (le_max_right _ _)
    · refine ⟨?_, ?_, rfl⟩ <;> dsimp only
      · exact div_nonneg
          (add_nonneg (mul_nonneg hg (by linarith)) (le_max_right _ _)) (by linarith)
      · exact div_nonneg
          (add_nonneg (mul_nonneg hl (by linarith)) (le_max_right _ _)) (by linarith)

/-- The Wilder averages of a fresh indicator stay non-negative over any
input sequence, and the period is `n` throughout. -/
theorem rsiRun_state (n : Nat) (hn : 0 < n) (xs : List ℚ) :
    0 ≤ (rsiRun n xs).avg_gain ∧ 0 ≤ (rsiRun n xs).avg_loss
    ∧ (rsiRun n xs).period = n := by
  suffices h : ∀ (r : RsiIndicator), 0 < r.period → 0 ≤ r.avg_gain → 0 ≤ r.avg_loss →
      0 ≤ (xs.foldl RsiIndicator.next r).avg_gain
      ∧ 0 ≤ (xs.foldl RsiIndicator.next r).avg_loss
      ∧ (xs.foldl RsiIndicator.next r).period = r.period by
    exact h (RsiIndicator.new n) hn le_rfl le_rfl
  induction xs with
  | nil =>
    intro r _ h2 h3
    exact ⟨h2, h3, rfl⟩
  | cons x t ih =>
    intro r h1 h2 h3
    have hs := rsi_next_state r x h1 h2 h3
    have hrest := ih (r.next x) (hs.2.2 ▸ h1) hs.1 hs.2.1
    exact ⟨hrest.1, hrest.2.1, by rw [List.foldl_cons, hrest.2.2, hs.2.2]⟩

/-- The RSI state reached from period 1 and the two samples `2⁻⁶⁰, 0`: its
average loss is positive but below `f64::EPSILON`. -/
def rsiTiny : RsiIndicator := ((RsiIndicator.new 1).next (1 / 2 ^ 60)).next 0

/-- Counterexample to claim C8 as stated: after warmup with a non-zero
`avg_loss`, `value()` can still return 100 instead of
`100 − 100/(1 + avg_gain/avg_loss)` (which here is 0), because the code
compares `avg_loss.abs()` against `f64::EPSILON`, not against zero. -/
theorem C8_counterexample :
    rsiTiny.period ≤ rsiTiny.periods_processed
    ∧ rsiTiny.avg_loss ≠ 0
    ∧ rsiTiny.value = 100
    ∧ rsiTiny.value ≠ 100 - (100 / (1 + rsiTiny.avg_gain / rsiTiny.avg_loss)) := by
  have hg : rsiTiny.avg_gain = 0 := by
    norm_num [rsiTiny, RsiIndicator.new, RsiIndicator.next, max_def]
  have hl : rsiTiny.avg_loss = 1 / 2 ^ 60 := by
    norm_num [rsiTiny, RsiIndicator.new, RsiIndicator.next, max_def]
  have hp : rsiTiny.periods_processed = 1 := by
    norm_num [rsiTiny, RsiIndicator.new, RsiIndicator.next]
  have hpr : rsiTiny.period = 1 := by
    norm_num [rsiTiny, RsiIndicator.new, RsiIndicator.next]
  have hv : rsiTiny.value = 100 := by
    unfold RsiIndicator.value RsiIndicator.calculate_rsi
    rw [hl, hp, hpr, if_neg (by norm_num), if_pos]
    rw [abs_of_nonneg (by norm_num)]
    norm_num [f64_epsilon]
  refine ⟨by omega, by rw [hl]; norm_num, hv, ?_⟩
  rw [hv, hg, hl]
  norm_num

/-- Claim C8, amended: with the warmup and zero tests as the code actually
writes them — `avg_loss.abs() < f64::EPSILON` in place of `avg_loss = 0` —
the RSI output is: exactly 50 while fewer than `n` changes have been
processed; exactly 100 once `|avg_loss| < 2⁻⁵²` after warmup (in particular
whenever every change was non-negative); otherwise
`100 − 100/(1 + avg_gain/avg_loss)` with the averages maintained by Wilder's
update `avg ← (avg·(n−1) + new)/n` after warmup; and the output always lies
in `[0, 100]`. -/
theorem C8_amended (n : Nat) (hn : 0 < n) (xs : List ℚ) :
    ((rsiRun n xs).periods_processed < n → (rsiRun n xs).value = 50)
    ∧ (n ≤ (rsiRun n xs).periods_processed →
        |(rsiRun n xs).avg_loss| < f64_epsilon → (rsiRun n xs).value = 100)
    ∧ (n ≤ (rsiRun n xs).periods_processed →
        f64_epsilon ≤ |(rsiRun n xs).avg_loss| →
        (rsiRun n xs).value
          = 100 - (100 / (1 + (rsiRun n xs).avg_gain / (rsiRun n xs).avg_loss)))
    ∧ (∀ (x p : ℚ), (rsiRun n xs).prev_value = some p →
        n ≤ (rsiRun n xs).periods_processed →
        ((rsiRun n xs).next x).avg_gain
          = ((rsiRun n xs).avg_gain * ((n : ℚ) - 1) + max (x - p) 0) / (n : ℚ)
        ∧ ((rsiRun n xs).next x).avg_loss
          = ((rsiRun n xs).avg_loss * ((n : ℚ) - 1) + max (-(x - p)) 0) / (n : ℚ))
    ∧ 0 ≤ (rsiRun n xs).value ∧ (rsiRun n xs).value ≤ 100 := by
  obtain ⟨hg, hl, hpd⟩ := rsiRun_state n hn xs
  refine ⟨?_, ?_, ?_, ?_, ?_⟩
  · intro h
    unfold RsiIndicator.value RsiIndicator.calculate_rsi
    rw [if_pos (by omega)]
  · intro h he
    unfold RsiIndicator.value RsiIndicator.calculate_rsi
    rw [if_neg (by omega), if_pos he]
  · intro h he
    unfold RsiIndicator.value RsiIndicator.calculate_rsi
    rw [if_neg (by omega), if_neg (not_lt.mpr he)]
  · intro x p hpv hpp
    simp only [RsiIndicator.next, hpv]
    rw [if_neg (by omega)]
    refine ⟨?_, ?_⟩ <;> dsimp only <;> rw [hpd]
  · unfold RsiIndicator.value RsiIndicator.calculate_rsi
    by_cases h1 : (rsiRun n xs).periods_processed < (rsiRun n xs).period
    · rw [if_pos h1]
      norm_num
    · rw [if_neg h1]
      by_cases h2 : |(rsiRun n xs).avg_loss| < f64_epsilon
      · rw [if_pos h2]
        norm_num
      · rw [if_neg h2]
        have hle : f64_epsilon ≤ |(rsiRun n xs).avg_loss| := not_lt.mp h2
        rw [abs_of_nonneg hl] at hle
        have heps : (0 : ℚ) < f64_epsilon := by norm_num [f64_epsilon]
        have hlpos : 0 < (rsiRun n xs).avg_loss := lt_of_lt_of_le heps hle
        have hdiv : 0 ≤ (rsiRun n xs).avg_gain / (rsiRun n xs).avg_loss :=
          div_nonneg hg hlpos.le
        have hd1 : (1 : ℚ) ≤ 1 + (rsiRun n xs).avg_gain / (rsiRun n xs).avg_loss := by
          linarith
        have h100 : 100 / (1 + (rsiRun n xs).avg_gain / (rsiRun n xs).avg_loss) ≤ 100 :=
          div_le_self (by norm_num) hd1
        have h100p : 0 < 100 / (1 + (rsiRun n xs).avg_gain / (rsiRun n xs).avg_loss) :=
          div_pos (by norm_num) (by linarith)
        constructor
        · linarith
        · linarith

/-- Witness for C8 (amended): period 1 with samples `1, 3` is past warmup,
its `avg_loss` is zero, and the output is exactly 100. -/
theorem C8_amended_witness : (rsiRun 1 [1, 3]).value = 100 := by
  have hloss : (rsiRun 1 [1, 3]).avg_loss = 0 := by
    norm_num [rsiRun, RsiIndicator.new, RsiIndicator.next, max_def]
  have hper : 1 ≤ (rsiRun 1 [1, 3]).periods_processed := by
    norm_num [rsiRun, RsiIndicator.new, RsiIndicator.next]
  exact (C8_amended 1 (by norm_num) [1, 3]).2.1 hper
    (by rw [hloss, abs_zero]; norm_num [f64_epsilon])

end Racer
